import Mathlib

/-
Verification of the earthworm chat client's session-management core.

The definitions below are a shallow embedding of the TypeScript source:
  - src/services/chatService.ts   (sendMessage, getFallbackResponse,
                                   saveChatHistory, getChatHistory)
  - src/pages/ChatPage.tsx        (generateTitle, handleSend)
  - src/components/chat/ChatInput.tsx (stopRecording)

Modelling conventions:
  - JS `Date` values are their millisecond epoch value, a `Nat`.
  - JSON serialization of a `Date` (via `toISOString`) is modelled as an
    injective decimal rendering of the millisecond value; `new Date(s)`
    on such a string is its parse.  Strings and other JSON-safe fields
    round-trip unchanged.
  - `localStorage` is an `Option (List StoredSession)`: `none` models a
    missing "earthworm-chat-history" key.
  - `undefined` optional arguments are `Option.none`; the JS falsiness
    test `!x` on an optional string is `x.getD "" = ""`.
  - The outcome of the single network call made by a send is passed in
    explicitly (`FetchOutcome` / `SendOutcome`), since the remote
    endpoint is outside the program.
-/

namespace Earthworm

/-- Model of JavaScript String.prototype.trim: drop whitespace from both
ends.  Implemented structurally over the character list so that it
evaluates in the kernel. -/
def jsTrim (s : String) : String :=
  String.mk (((s.data.dropWhile Char.isWhitespace).reverse.dropWhile Char.isWhitespace).reverse)

/-- Message role, from the `role: 'user' | 'assistant'` union in types.ts. -/
inductive Role where
  | user
  | assistant
deriving DecidableEq

/-- One chat turn, from `interface Message` in types.ts.  `timestamp` is a
JS Date, modelled as its millisecond value. -/
structure Message where
  id : String
  role : Role
  content : String
  timestamp : Nat
  imageUrl : Option String
  audioUrl : Option String
deriving DecidableEq

/-- One conversation, from `interface ChatSession` in types.ts. -/
structure ChatSession where
  id : String
  title : String
  messages : List Message
  createdAt : Nat
  updatedAt : Nat
deriving DecidableEq

/-- The JSON-parsed shape of a persisted message: timestamps come back
from `JSON.parse` as strings until the code re-wraps them in `new Date`. -/
structure StoredMessage where
  id : String
  role : Role
  content : String
  timestamp : String
  imageUrl : Option String
  audioUrl : Option String
deriving DecidableEq

/-- The JSON-parsed shape of a persisted session. -/
structure StoredSession where
  id : String
  title : String
  messages : List StoredMessage
  createdAt : String
  updatedAt : String
deriving DecidableEq

/-- Little-endian base-10 digits of `n`, computed with fuel so that the
kernel can evaluate it (Nat.digits is defined by well-founded recursion
and does not reduce).  `digitsAux fuel n = Nat.digits 10 n` once
`n ≤ fuel`. -/
def digitsAux : Nat → Nat → List Nat
  | _, 0 => []
  | 0, _ + 1 => []
  | fuel + 1, n + 1 => (n + 1) % 10 :: digitsAux fuel ((n + 1) / 10)

/-- Base-10 digits of `n`, least significant first. -/
def natDigits (n : Nat) : List Nat := digitsAux n n

/-- Model of `Date.prototype.toISOString` as used by `JSON.stringify`:
an injective decimal rendering of the millisecond value. -/
def dateToIso (t : Nat) : String :=
  String.mk (((natDigits t).map Nat.digitChar).reverse)

/-- Numeric value of a decimal digit character. -/
def charDigit (c : Char) : Nat := c.toNat - '0'.toNat

/-- Model of `new Date(s)` applied to a serialized timestamp string:
parse the decimal rendering back to the millisecond value. -/
def isoToDate (s : String) : Nat :=
  Nat.ofDigits 10 ((s.data.map charDigit).reverse)

/-- What `JSON.stringify` does to a Message: every field is JSON-safe
except the Date, which becomes its ISO string. -/
def serializeMessage (m : Message) : StoredMessage :=
  { id := m.id, role := m.role, content := m.content,
    timestamp := dateToIso m.timestamp,
    imageUrl := m.imageUrl, audioUrl := m.audioUrl }

/-- What `JSON.stringify` does to a ChatSession. -/
def serializeSession (s : ChatSession) : StoredSession :=
  { id := s.id, title := s.title,
    messages := s.messages.map serializeMessage,
    createdAt := dateToIso s.createdAt,
    updatedAt := dateToIso s.updatedAt }

/-- The revival map inside getChatHistory: spread the parsed record and
re-wrap the timestamp with `new Date`. -/
def reviveMessage (m : StoredMessage) : Message :=
  { id := m.id, role := m.role, content := m.content,
    timestamp := isoToDate m.timestamp,
    imageUrl := m.imageUrl, audioUrl := m.audioUrl }

/-- The revival map inside getChatHistory for a whole session. -/
def reviveSession (s : StoredSession) : ChatSession :=
  { id := s.id, title := s.title,
    messages := s.messages.map reviveMessage,
    createdAt := isoToDate s.createdAt,
    updatedAt := isoToDate s.updatedAt }

/-- chatService.getChatHistory: read the stored collection, reviving all
timestamp fields as Dates; a missing key yields the empty list (the
corrupt-data catch branch likewise yields the empty list). -/
def getChatHistory : Option (List StoredSession) → List ChatSession
  | some l => l.map reviveSession
  | none => []

/-- The upsert step of chatService.saveChatHistory:
`findIndex` on the id, assign in place when found, `push` otherwise. -/
def upsertSession : List ChatSession → ChatSession → List ChatSession
  | [], session => [session]
  | s :: rest, session =>
    if s.id == session.id then session :: rest
    else s :: upsertSession rest session

/-- The capacity step of chatService.saveChatHistory:
`if (history.length > 50) history.shift()`. -/
def capHistory (l : List ChatSession) : List ChatSession :=
  if l.length > 50 then l.tail else l

/-- chatService.saveChatHistory on the in-memory list: upsert by id, then
evict position 0 when the collection exceeds 50 entries. -/
def saveChatHistoryList (history : List ChatSession) (session : ChatSession) :
    List ChatSession :=
  capHistory (upsertSession history session)

/-- chatService.saveChatHistory end to end: load the stored collection,
upsert, cap, and write the serialized result back. -/
def saveChatHistory (stored : Option (List StoredSession)) (session : ChatSession) :
    Option (List StoredSession) :=
  some ((saveChatHistoryList (getChatHistory stored) session).map serializeSession)

/-- The English entry of the fallback table in getFallbackResponse. -/
def fallbackEn (text : String) : String :=
  "I received your message: \"" ++ text ++ "\". This is a fallback response for development. Please ensure the Python backend is running on port 8000."

/-- The Hindi entry of the fallback table. -/
def fallbackHi (text : String) : String :=
  "मैंने आपका संदेश प्राप्त किया: \"" ++ text ++ "\"। यह विकास के लिए एक फॉलबैक प्रतिक्रिया है। कृपया सुनिश्चित करें कि Python बैकएंड पोर्ट 8000 पर चल रहा है।"

/-- The Tamil entry of the fallback table. -/
def fallbackTa (text : String) : String :=
  "உங்கள் செய்தியைப் பெற்றேன்: \"" ++ text ++ "\". இது வளர்ச்சிக்கான மாற்று பதில். பைதான் பின்தளம் போர்ட் 8000 இல் இயங்குவதை உறுதி செய்யவும்."

/-- The Telugu entry of the fallback table. -/
def fallbackTe (text : String) : String :=
  "మీ సందేశం అందుకున్నాను: \"" ++ text ++ "\". ఇది అభివృద్ధి కోసం ఫాల్‌బ్యాక్ ప్రతిస్పందన. Python బ్యాక్‌ఎండ్ పోర్ట్ 8000లో నడుస్తోందని నిర్ధారించుకోండి."

/-- The Kannada entry of the fallback table. -/
def fallbackKn (text : String) : String :=
  "ನಿಮ್ಮ ಸಂದೇಶವನ್ನು ಸ್ವೀಕರಿಸಿದ್ದೇನೆ: \"" ++ text ++ "\". ಇದು ಅಭಿವೃದ್ಧಿಗಾಗಿ ಫಾಲ್‌ಬ್ಯಾಕ್ ಪ್ರತಿಕ್ರಿಯೆ. Python ಬ್ಯಾಕ್‌ಎಂಡ್ ಪೋರ್ಟ್ 8000 ರಲ್ಲಿ ಚಾಲನೆಯಲ್ಲಿದೆ ಎಂದು ಖಚಿತಪಡಿಸಿಕೊಳ್ಳಿ."

/-- The Malayalam entry of the fallback table. -/
def fallbackMl (text : String) : String :=
  "നിങ്ങളുടെ സന്ദേശം സ്വീകരിച്ചു: \"" ++ text ++ "\". ഇത് വികസനത്തിനായുള്ള ഫോൾബാക്ക് പ്രതികരണമാണ്. Python ബാക്ക്എൻഡ് പോർട്ട് 8000-ൽ പ്രവർത്തിക്കുന്നുണ്ടോയെന്ന് ഉറപ്പാക്കുക."

/-- The Bengali entry of the fallback table. -/
def fallbackBn (text : String) : String :=
  "আমি আপনার বার্তা পেয়েছি: \"" ++ text ++ "\"। এটি উন্নয়নের জন্য একটি ফলব্যাক প্রতিক্রিয়া। অনুগ্রহ করে নিশ্চিত করুন যে Python ব্যাকএন্ড পোর্ট 8000-এ চলছে।"

/-- The Marathi entry of the fallback table. -/
def fallbackMr (text : String) : String :=
  "मला तुमचा संदेश मिळाला: \"" ++ text ++ "\". हे विकासासाठी एक फॉलबॅक प्रतिसाद आहे. कृपया खात्री करा की Python बॅकएंड पोर्ट 8000 वर चालू आहे."

/-- The Gujarati entry of the fallback table. -/
def fallbackGu (text : String) : String :=
  "મેં તમારો સંદેશ પ્રાપ્ત કર્યો: \"" ++ text ++ "\". આ વિકાસ માટે ફોલબેક પ્રતિસાદ છે. કૃપા કરીને ખાતરી કરો કે Python બેકએન્ડ પોર્ટ 8000 પર ચાલી રહ્યું છે."

/-- The Punjabi entry of the fallback table. -/
def fallbackPa (text : String) : String :=
  "ਮੈਂ ਤੁਹਾਡਾ ਸੰਦੇਸ਼ ਪ੍ਰਾਪਤ ਕੀਤਾ: \"" ++ text ++ "\". ਇਹ ਵਿਕਾਸ ਲਈ ਇੱਕ ਫੌਲਬੈਕ ਜਵਾਬ ਹੈ। ਕਿਰਪਾ ਕਰਕੇ ਯਕੀਨੀ ਬਣਾਓ ਕਿ Python ਬੈਕਐਂਡ ਪੋਰਟ 8000 'ਤੇ ਚੱਲ ਰਿਹਾ ਹੈ।"

/-- The `Language` union from types.ts, as runtime string codes. -/
def supportedLanguages : List String :=
  ["en", "hi", "ta", "te", "kn", "ml", "bn", "mr", "gu", "pa"]

/-- chatService.getFallbackResponse: `responses[language] || responses["en"]`.
Every table entry is a non-empty string, so the `||` default fires exactly
when the key is outside the table. -/
def getFallbackResponse (text : String) (language : String) : String :=
  match language with
  | "en" => fallbackEn text
  | "hi" => fallbackHi text
  | "ta" => fallbackTa text
  | "te" => fallbackTe text
  | "kn" => fallbackKn text
  | "ml" => fallbackMl text
  | "bn" => fallbackBn text
  | "mr" => fallbackMr text
  | "gu" => fallbackGu text
  | "pa" => fallbackPa text
  | _ => fallbackEn text

/-- The possible outcomes of the single `fetch` in sendMessage:
a transport failure, a non-ok response (with its optional `detail`
field), or an ok response with its body text. -/
inductive FetchOutcome where
  | networkFailure
  | httpFailure (status : Nat) (detail : Option String)
  | httpOk (response : String)
deriving DecidableEq

/-- The classified errors sendMessage can raise: the transport rejection,
or the thrown `Error(detail || "HTTP error! status: ...")`. -/
inductive ChatError where
  | network
  | http (message : String)
deriving DecidableEq

/-- chatService.sendMessage: return the response text on success; on any
caught error return the fallback when `import.meta.env.DEV` is set,
otherwise rethrow. -/
def sendMessage (fetchResult : FetchOutcome) (isDev : Bool)
    (text : String) (language : String) : Except ChatError String :=
  match fetchResult with
  | FetchOutcome.httpOk response => Except.ok response
  | FetchOutcome.networkFailure =>
    if isDev then Except.ok (getFallbackResponse text language)
    else Except.error ChatError.network
  | FetchOutcome.httpFailure status detail =>
    if isDev then Except.ok (getFallbackResponse text language)
    else Except.error (ChatError.http (detail.getD ("HTTP error! status: " ++ toString status)))

/-- ChatPage.generateTitle: keep the text when it has at most 30
characters, else the first 30 characters plus an ellipsis marker. -/
def generateTitle (firstMessage : String) : String :=
  if firstMessage.length ≤ 30 then firstMessage
  else String.mk (firstMessage.data.take 30) ++ "..."

/-- The `setSessions` updater in the success branch of handleSend:
replace in place when a session with the same id exists, otherwise
prepend the session to the front of the list. -/
def updateSessionsIndex (prev : List ChatSession) (finalSession : ChatSession) :
    List ChatSession :=
  if prev.any (fun s => s.id == finalSession.id) then
    prev.map (fun s => if s.id == finalSession.id then finalSession else s)
  else finalSession :: prev

/-- The ChatPage component state touched by handleSend: the active
session, the in-memory session index shown in the sidebar, and the
persisted collection. -/
structure ChatPageState where
  currentSession : ChatSession
  sessions : List ChatSession
  stored : Option (List StoredSession)
deriving DecidableEq

/-- Outcome of the awaited `chatService.sendMessage` call inside
handleSend: the resolved response text, or any thrown error. -/
inductive SendOutcome where
  | success (response : String)
  | failure
deriving DecidableEq

/-- Result of one handleSend invocation: the new component state, and
whether the network call was issued at all. -/
structure SendResult where
  state : ChatPageState
  networkCalled : Bool
deriving DecidableEq

/-- The user-message phase of handleSend: append the user Message built
from the inputs, stamp `updatedAt`, and derive the title exactly when the
appended message is the first one and the trimmed text is non-empty
(`if (updatedSession.messages.length === 1 && text.trim())`). -/
def buildUserSession (cur : ChatSession) (text : String)
    (imageBase64 audioFile : Option String) (now1 : Nat) : ChatSession :=
  let userMessage : Message :=
    { id := toString now1, role := Role.user, content := text,
      timestamp := now1, imageUrl := imageBase64, audioUrl := audioFile }
  let afterUser : ChatSession :=
    { cur with messages := cur.messages ++ [userMessage], updatedAt := now1 }
  if afterUser.messages.length = 1 ∧ jsTrim text ≠ "" then
    { afterUser with title := generateTitle text }
  else afterUser

/-- The assistant-message phase of handleSend, shared by the success
branch (server response text) and the catch branch (localized
`t('maintenance')` notice): append an assistant Message and stamp
`updatedAt`. -/
def appendAssistant (s : ChatSession) (content : String) (now2 : Nat) : ChatSession :=
  { s with
      messages := s.messages ++
        [{ id := toString (now2 + 1), role := Role.assistant, content := content,
           timestamp := now2, imageUrl := none, audioUrl := none }],
      updatedAt := now2 }

/-- ChatPage.handleSend.  `now1`/`now2` are the clock readings for the
user-message and assistant-message phases; `maintenanceText` is the
localized `t('maintenance')` notice.  The guard mirrors
`if (!text.trim() && !imageBase64 && !audioFile) return`.  On success the
final session is persisted and the index updated; in the catch branch the
synthetic assistant message is only placed in the component state. -/
def handleSend (st : ChatPageState) (text : String)
    (imageBase64 audioFile : Option String) (now1 now2 : Nat)
    (outcome : SendOutcome) (maintenanceText : String) : SendResult :=
  if jsTrim text = "" ∧ imageBase64.getD "" = "" ∧ audioFile.getD "" = "" then
    ⟨st, false⟩
  else
    let updatedSession := buildUserSession st.currentSession text imageBase64 audioFile now1
    match outcome with
    | SendOutcome.success response =>
      let finalSession := appendAssistant updatedSession response now2
      ⟨{ currentSession := finalSession,
         sessions := updateSessionsIndex st.sessions finalSession,
         stored := saveChatHistory st.stored finalSession }, true⟩
    | SendOutcome.failure =>
      let finalSession := appendAssistant updatedSession maintenanceText now2
      ⟨{ currentSession := finalSession,
         sessions := st.sessions,
         stored := st.stored }, true⟩

/-- ChatInput recording state: the `isRecording` flag, the MediaRecorder
handle (the held device), the elapsed-time interval handle, the elapsed
seconds, and the held audio artifact. -/
structure RecordingState where
  isRecording : Bool
  mediaRecorder : Option Nat
  intervalActive : Bool
  recordingTime : Nat
  audioFile : Option String
deriving DecidableEq

/-- Result of a stopRecording call: the new state, and whether
`mediaRecorderRef.current.stop()` (the device-releasing call) ran. -/
structure StopResult where
  state : RecordingState
  recorderStopCalled : Bool
deriving DecidableEq

/-- ChatInput.stopRecording: guarded by
`if (mediaRecorderRef.current && isRecording)`; inside, it stops the
recorder, clears the flag and cancels the interval.  Outside the guard
nothing happens. -/
def stopRecording (st : RecordingState) : StopResult :=
  if st.mediaRecorder.isSome && st.isRecording then
    { state := { st with isRecording := false, intervalActive := false },
      recorderStopCalled := true }
  else
    { state := st, recorderStopCalled := false }

/-- A fresh session as created in ChatPage's initial state / handleNewChat:
placeholder title `t('newChat')`, no messages. -/
def emptySession : ChatSession :=
  { id := "sess1", title := "New Chat", messages := [], createdAt := 0, updatedAt := 0 }

/-- A concrete initial component state: fresh session, empty index,
nothing persisted yet. -/
def st0 : ChatPageState :=
  { currentSession := emptySession, sessions := [], stored := none }

/-- A session named by its index, for concrete store scenarios. -/
def demoSession (i : Nat) : ChatSession :=
  { id := "s" ++ toString i, title := "session", messages := [],
    createdAt := i, updatedAt := i }

/-- A store already holding 50 distinct sessions. -/
def demoHistory : List ChatSession := (List.range 50).map demoSession

/-- A concrete session index of two sessions, current session the second. -/
def sessA : ChatSession :=
  { id := "A", title := "tA", messages := [], createdAt := 0, updatedAt := 0 }

/-- Second session of the two-session scenario. -/
def sessB : ChatSession :=
  { id := "B", title := "tB", messages := [], createdAt := 0, updatedAt := 0 }

/-- Component state whose index already holds sessions A and B, with B
the active session. -/
def stAB : ChatPageState :=
  { currentSession := sessB, sessions := [sessA, sessB], stored := none }

/-- The fuel-based digit computation agrees with Nat.digits once the fuel
covers the argument. -/
theorem digitsAux_eq_digits (fuel : Nat) :
    ∀ n : Nat, n ≤ fuel → digitsAux fuel n = Nat.digits 10 n := by
  induction fuel with
  | zero =>
    intro n hn
    have : n = 0 := Nat.le_zero.mp hn
    subst this
    rw [Nat.digits_zero]
    rfl
  | succ fuel ih =>
    intro n hn
    match n with
    | 0 =>
      rw [Nat.digits_zero]
      rfl
    | m + 1 =>
      have hdiv : (m + 1) / 10 ≤ fuel := by
        have : (m + 1) / 10 < m + 1 := Nat.div_lt_self (Nat.succ_pos m) (by norm_num)
        omega
      rw [digitsAux, ih ((m + 1) / 10) hdiv,
        Nat.digits_def' (by norm_num : (1 : ℕ) < 10) (Nat.succ_pos m)]

/-- natDigits is exactly Nat.digits in base 10. -/
theorem natDigits_eq_digits (n : Nat) : natDigits n = Nat.digits 10 n :=
  digitsAux_eq_digits n n le_rfl

/-- Reading a decimal digit character back gives the digit. -/
theorem charDigit_digitChar (d : Nat) (hd : d < 10) :
    charDigit (Nat.digitChar d) = d := by
  interval_cases d <;> decide

/-- Parsing a serialized timestamp restores the exact millisecond value. -/
theorem isoToDate_dateToIso (t : Nat) : isoToDate (dateToIso t) = t := by
  show Nat.ofDigits 10 (((((natDigits t).map Nat.digitChar).reverse).map charDigit).reverse) = t
  rw [List.map_reverse, List.reverse_reverse, List.map_map]
  have hmap : (natDigits t).map (charDigit ∘ Nat.digitChar) = natDigits t := by
    rw [List.map_congr_left (fun d hd => ?_)]
    · exact List.map_id (natDigits t)
    · have : d < 10 := by
        rw [natDigits_eq_digits] at hd
        exact Nat.digits_lt_base (by norm_num) hd
      exact charDigit_digitChar d this
  rw [hmap, natDigits_eq_digits]
  exact Nat.ofDigits_digits 10 t

/-- Serializing then reviving a message is the identity. -/
theorem reviveMessage_serializeMessage (m : Message) :
    reviveMessage (serializeMessage m) = m := by
  cases m
  simp [reviveMessage, serializeMessage, isoToDate_dateToIso]

/-- Serializing then reviving a session is the identity: every field,
including all timestamps, round-trips. -/
theorem reviveSession_serializeSession (s : ChatSession) :
    reviveSession (serializeSession s) = s := by
  cases s with
  | mk id title messages createdAt updatedAt =>
    simp only [reviveSession, serializeSession, List.map_map, isoToDate_dateToIso,
      ChatSession.mk.injEq, and_true, true_and]
    have h1 : ∀ m ∈ messages, (reviveMessage ∘ serializeMessage) m = m :=
      fun m _ => reviveMessage_serializeMessage m
    rw [List.map_congr_left h1]
    exact List.map_id messages

/-- Loading right after a save sees exactly the upserted, capped list. -/
theorem getChatHistory_saveChatHistory (stored : Option (List StoredSession))
    (s : ChatSession) :
    getChatHistory (saveChatHistory stored s)
      = saveChatHistoryList (getChatHistory stored) s := by
  show (((saveChatHistoryList (getChatHistory stored) s).map serializeSession).map reviveSession)
      = saveChatHistoryList (getChatHistory stored) s
  rw [List.map_map]
  have h1 : ∀ x ∈ saveChatHistoryList (getChatHistory stored) s,
      (reviveSession ∘ serializeSession) x = x :=
    fun x _ => reviveSession_serializeSession x
  rw [List.map_congr_left h1]
  exact List.map_id _

/-- The upserted session is always a member of the upsert result. -/
theorem mem_upsertSession (history : List ChatSession) (s : ChatSession) :
    s ∈ upsertSession history s := by
  induction history with
  | nil => exact List.mem_singleton.mpr rfl
  | cons x rest ih =>
    rw [upsertSession]
    split
    · exact List.mem_cons_self s rest
    · exact List.mem_cons_of_mem x ih

/-- An upsert either keeps the length (replacement) or is literally an
append of the new session (fresh id). -/
theorem upsertSession_cases (history : List ChatSession) (s : ChatSession) :
    (upsertSession history s).length = history.length
      ∨ upsertSession history s = history ++ [s] := by
  induction history with
  | nil => exact Or.inr rfl
  | cons x rest ih =>
    rw [upsertSession]
    split
    · exact Or.inl (by simp)
    · rcases ih with h | h
      · exact Or.inl (by simp [h])
      · exact Or.inr (by simp [h])

/-- Replacement case of the upsert: when the id occurs, the first
occurrence is overwritten in place. -/
theorem upsertSession_replace (pre : List ChatSession) (old : ChatSession)
    (suf : List ChatSession) (s : ChatSession)
    (hpre : ∀ x ∈ pre, x.id ≠ s.id) (hold : old.id = s.id) :
    upsertSession (pre ++ old :: suf) s = pre ++ s :: suf := by
  induction pre with
  | nil =>
    simp only [List.nil_append]
    rw [upsertSession]
    rw [if_pos (beq_iff_eq.mpr hold)]
  | cons x rest ih =>
    simp only [List.cons_append]
    rw [upsertSession]
    rw [if_neg (by
      intro hbeq
      exact hpre x (List.mem_cons_self x rest) (beq_iff_eq.mp hbeq))]
    rw [ih (fun y hy => hpre y (List.mem_cons_of_mem x hy))]

/-- Fresh-id case of the upsert: the session is appended at the end. -/
theorem upsertSession_append (history : List ChatSession) (s : ChatSession)
    (h : ∀ x ∈ history, x.id ≠ s.id) :
    upsertSession history s = history ++ [s] := by
  induction history with
  | nil => rfl
  | cons x rest ih =>
    rw [upsertSession]
    rw [if_neg (by
      intro hbeq
      exact h x (List.mem_cons_self x rest) (beq_iff_eq.mp hbeq))]
    rw [ih (fun y hy => h y (List.mem_cons_of_mem x hy))]
    rfl

/-- The saved session always survives the save (it is never the evicted
element), provided the store respects its capacity invariant. -/
theorem mem_saveChatHistoryList (history : List ChatSession) (s : ChatSession)
    (hlen : history.length ≤ 50) :
    s ∈ saveChatHistoryList history s := by
  rw [saveChatHistoryList, capHistory]
  rcases upsertSession_cases history s with hcase | hcase
  · rw [if_neg (by omega : ¬(upsertSession history s).length > 50)]
    exact mem_upsertSession history s
  · rw [hcase]
    split
    · match history with
      | [] => simp_all
      | x :: rest => simp
    · exact List.mem_append_right history (List.mem_singleton.mpr rfl)

/-- The touched session is always a member of the updated index. -/
theorem mem_updateSessionsIndex (prev : List ChatSession) (s : ChatSession) :
    s ∈ updateSessionsIndex prev s := by
  rw [updateSessionsIndex]
  split
  · rename_i hany
    obtain ⟨x, hx, hxid⟩ := List.any_eq_true.mp hany
    exact List.mem_map.mpr ⟨x, hx, by rw [if_pos hxid]⟩
  · exact List.mem_cons_self s prev

/-- When no session in the index carries the id, the touched session is
prepended to the front. -/
theorem updateSessionsIndex_absent (prev : List ChatSession) (s : ChatSession)
    (h : ∀ x ∈ prev, x.id ≠ s.id) :
    updateSessionsIndex prev s = s :: prev := by
  rw [updateSessionsIndex]
  rw [if_neg (by
    intro hany
    obtain ⟨x, hx, hxid⟩ := List.any_eq_true.mp hany
    exact h x hx (beq_iff_eq.mp hxid))]

/-- When the id is already present, the update keeps every position: the
sequence of ids is unchanged, so nothing moves to the front. -/
theorem updateSessionsIndex_present_ids (prev : List ChatSession) (s : ChatSession)
    (h : ∃ x ∈ prev, x.id = s.id) :
    (updateSessionsIndex prev s).map ChatSession.id = prev.map ChatSession.id := by
  rw [updateSessionsIndex]
  rw [if_pos (by
    obtain ⟨x, hx, hxid⟩ := h
    exact List.any_eq_true.mpr ⟨x, hx, beq_iff_eq.mpr hxid⟩)]
  rw [List.map_map]
  refine List.map_congr_left (fun x _ => ?_)
  show (if x.id == s.id then s else x).id = x.id
  split
  · rename_i hbeq
    rw [beq_iff_eq.mp hbeq]
  · rfl

/-- The user-message phase never changes the session id. -/
theorem buildUserSession_id (cur : ChatSession) (text : String)
    (imageBase64 audioFile : Option String) (now1 : Nat) :
    (buildUserSession cur text imageBase64 audioFile now1).id = cur.id := by
  rw [buildUserSession]
  split <;> rfl

/-- The assistant-message phase never changes the session id. -/
theorem appendAssistant_id (s : ChatSession) (content : String) (now2 : Nat) :
    (appendAssistant s content now2).id = s.id := rfl

/-- The assistant-message phase never changes the title. -/
theorem appendAssistant_title (s : ChatSession) (content : String) (now2 : Nat) :
    (appendAssistant s content now2).title = s.title := rfl

/-- On a first message with non-blank text, the title is derived from the
text. -/
theorem buildUserSession_title_first (cur : ChatSession) (text : String)
    (imageBase64 audioFile : Option String) (now1 : Nat)
    (hmsgs : cur.messages = []) (htrim : jsTrim text ≠ "") :
    (buildUserSession cur text imageBase64 audioFile now1).title = generateTitle text := by
  rw [buildUserSession]
  rw [if_pos (by simp [hmsgs, htrim])]

/-- On a later message, or when the trimmed text is blank, the title is
left untouched. -/
theorem buildUserSession_title_unchanged (cur : ChatSession) (text : String)
    (imageBase64 audioFile : Option String) (now1 : Nat)
    (h : cur.messages ≠ [] ∨ jsTrim text = "") :
    (buildUserSession cur text imageBase64 audioFile now1).title = cur.title := by
  have hneg : ¬((cur.messages ++
      [{ id := toString now1, role := Role.user, content := text, timestamp := now1,
         imageUrl := imageBase64, audioUrl := audioFile : Message }]).length = 1
      ∧ jsTrim text ≠ "") := by
    rcases h with h | h
    · rintro ⟨hlen, -⟩
      rw [List.length_append] at hlen
      rcases List.exists_cons_of_ne_nil h with ⟨a, l, hcons⟩
      rw [hcons] at hlen
      simp at hlen
    · rintro ⟨-, htrim⟩
      exact htrim h
  rw [buildUserSession]
  rw [if_neg hneg]

/-- Equation for handleSend when the payload guard passes and the remote
call succeeds. -/
theorem handleSend_success_eq (st : ChatPageState) (text : String)
    (imageBase64 audioFile : Option String) (now1 now2 : Nat)
    (response maintenanceText : String)
    (hguard : ¬(jsTrim text = "" ∧ imageBase64.getD "" = "" ∧ audioFile.getD "" = "")) :
    handleSend st text imageBase64 audioFile now1 now2
        (SendOutcome.success response) maintenanceText
      = ⟨{ currentSession :=
             appendAssistant (buildUserSession st.currentSession text imageBase64 audioFile now1)
               response now2,
           sessions :=
             updateSessionsIndex st.sessions
               (appendAssistant (buildUserSession st.currentSession text imageBase64 audioFile now1)
                 response now2),
           stored :=
             saveChatHistory st.stored
               (appendAssistant (buildUserSession st.currentSession text imageBase64 audioFile now1)
                 response now2) }, true⟩ := by
  rw [handleSend, if_neg hguard]

/-- Equation for handleSend when the payload guard passes and the remote
call fails: the failure is absorbed into the component state only. -/
theorem handleSend_failure_eq (st : ChatPageState) (text : String)
    (imageBase64 audioFile : Option String) (now1 now2 : Nat)
    (maintenanceText : String)
    (hguard : ¬(jsTrim text = "" ∧ imageBase64.getD "" = "" ∧ audioFile.getD "" = "")) :
    handleSend st text imageBase64 audioFile now1 now2
        SendOutcome.failure maintenanceText
      = ⟨{ currentSession :=
             appendAssistant (buildUserSession st.currentSession text imageBase64 audioFile now1)
               maintenanceText now2,
           sessions := st.sessions,
           stored := st.stored }, true⟩ := by
  rw [handleSend, if_neg hguard]

/-- A send never changes the id of the active session. -/
theorem handleSend_currentSession_id (st : ChatPageState) (text : String)
    (imageBase64 audioFile : Option String) (now1 now2 : Nat)
    (outcome : SendOutcome) (maintenanceText : String) :
    (handleSend st text imageBase64 audioFile now1 now2 outcome maintenanceText).state.currentSession.id
      = st.currentSession.id := by
  rw [handleSend]
  split
  · rfl
  · cases outcome <;>
      simp only [appendAssistant_id, buildUserSession_id]

/-- Every fallback template wraps the caller's text verbatim between a
fixed language-specific opening and closing. -/
theorem getFallbackResponse_echoes (text language : String) :
    ∃ pre post, getFallbackResponse text language = pre ++ text ++ post := by
  unfold getFallbackResponse
  split <;> exact ⟨_, _, rfl⟩

/-- Claim C7: calling send with empty text, no image attachment, and no
audio attachment is a no-op — no Message is appended, the component state
is completely unchanged, and no network request is issued. -/
theorem handleSend_empty_payload_noop (st : ChatPageState) (now1 now2 : Nat)
    (outcome : SendOutcome) (maintenanceText : String) :
    handleSend st "" none none now1 now2 outcome maintenanceText
      = ⟨st, false⟩ := by
  rw [handleSend]
  rw [if_pos ⟨by decide, rfl, rfl⟩]

/-- Claim C9: the guard trims the text before testing emptiness, so text
consisting only of whitespace (with no attachments) is likewise a no-op:
state unchanged, no network request. -/
theorem handleSend_whitespace_noop (st : ChatPageState) (text : String)
    (now1 now2 : Nat) (outcome : SendOutcome) (maintenanceText : String)
    (htrim : jsTrim text = "") :
    handleSend st text none none now1 now2 outcome maintenanceText
      = ⟨st, false⟩ := by
  rw [handleSend]
  rw [if_pos ⟨htrim, rfl, rfl⟩]

/-- Claim C9 witness: a concrete whitespace-only text is a no-op. -/
theorem handleSend_whitespace_noop_witness :
    handleSend st0 "   " none none 1 2 (SendOutcome.success "r") "m"
      = ⟨st0, false⟩ :=
  handleSend_whitespace_noop st0 "   " 1 2 (SendOutcome.success "r") "m" (by decide)

/-- Claim C8: calling stopRecording while not in the Recording state is a
no-op: the state (including the held artifact) is unchanged and the
recorder's device-releasing stop() is not invoked. -/
theorem stopRecording_idle_noop (st : RecordingState)
    (h : st.isRecording = false) :
    stopRecording st = { state := st, recorderStopCalled := false } := by
  rw [stopRecording]
  rw [if_neg (by rw [h]; simp)]

/-- Claim C8 witness: a concrete idle state with a held artifact and a
stale recorder handle is untouched by stopRecording. -/
theorem stopRecording_idle_noop_witness :
    stopRecording
        { isRecording := false, mediaRecorder := some 7, intervalActive := false,
          recordingTime := 3, audioFile := some "clip" }
      = { state :=
            { isRecording := false, mediaRecorder := some 7, intervalActive := false,
              recordingTime := 3, audioFile := some "clip" },
          recorderStopCalled := false } :=
  stopRecording_idle_noop
    { isRecording := false, mediaRecorder := some 7, intervalActive := false,
      recordingTime := 3, audioFile := some "clip" } rfl

/-- Claim C6: when the remote call yields a classified error and the
runtime is a development build, sendMessage does not raise: it returns the
fixed language-specific fallback, which echoes the input text as a
substring.  In a production build the classified error propagates. -/
theorem sendMessage_dev_fallback (text language : String)
    (fetchResult : FetchOutcome)
    (hfail : ∀ r, fetchResult ≠ FetchOutcome.httpOk r) :
    (sendMessage fetchResult true text language
        = Except.ok (getFallbackResponse text language)
      ∧ ∃ pre post, getFallbackResponse text language = pre ++ text ++ post)
    ∧ ∃ e, sendMessage fetchResult false text language = Except.error e := by
  cases fetchResult with
  | httpOk r => exact absurd rfl (hfail r)
  | networkFailure =>
    exact ⟨⟨rfl, getFallbackResponse_echoes text language⟩, ChatError.network, rfl⟩
  | httpFailure status detail =>
    exact ⟨⟨rfl, getFallbackResponse_echoes text language⟩,
      ChatError.http (detail.getD ("HTTP error! status: " ++ toString status)), rfl⟩

/-- Claim C6 witness: a forced network failure in development mode makes
send("Hello", "en") return the fallback, which contains "Hello"; in
production the error propagates. -/
theorem sendMessage_dev_fallback_witness :
    (sendMessage FetchOutcome.networkFailure true "Hello" "en"
        = Except.ok (getFallbackResponse "Hello" "en")
      ∧ ∃ pre post, getFallbackResponse "Hello" "en" = pre ++ "Hello" ++ post)
    ∧ ∃ e, sendMessage FetchOutcome.networkFailure false "Hello" "en" = Except.error e :=
  sendMessage_dev_fallback "Hello" "en" FetchOutcome.networkFailure
    (fun _ h => FetchOutcome.noConfusion h)

/-- Claim C10: every supported language code has a fallback response
containing the caller's text verbatim, and a code outside the table falls
back to the English response. -/
theorem getFallbackResponse_coverage (language text : String) :
    (language ∈ supportedLanguages →
      ∃ pre post, getFallbackResponse text language = pre ++ text ++ post)
    ∧ (language ∉ supportedLanguages →
      getFallbackResponse text language = fallbackEn text) := by
  constructor
  · intro _
    exact getFallbackResponse_echoes text language
  · intro h
    unfold getFallbackResponse
    split <;> first
      | rfl
      | (exfalso; apply h; simp [supportedLanguages])

/-- Claim C10 witness: the Tamil fallback echoes the text; the
unsupported code "fr" gets the English default. -/
theorem getFallbackResponse_coverage_witness :
    (∃ pre post, getFallbackResponse "soil" "ta" = pre ++ "soil" ++ post)
    ∧ getFallbackResponse "soil" "fr" = fallbackEn "soil" :=
  ⟨(getFallbackResponse_coverage "ta" "soil").1 (by decide),
   (getFallbackResponse_coverage "fr" "soil").2 (by decide)⟩

/-- Claim C1 counterexample: a send whose remote call fails appends the
user message and the synthetic assistant message, yet nothing is written
to the store (still no persisted key) and the session index stays empty —
persistence does not happen on the absorbed-failure outcome. -/
theorem handleSend_failure_drops_persistence :
    ((handleSend st0 "hi" none none 5 6 SendOutcome.failure "svc").state.currentSession.messages.map
        Message.role = [Role.user, Role.assistant])
    ∧ (handleSend st0 "hi" none none 5 6 SendOutcome.failure "svc").state.stored = none
    ∧ (handleSend st0 "hi" none none 5 6 SendOutcome.failure "svc").state.sessions = [] := by
  decide

/-- Claim C1 as amended: the updated session is persisted via
saveChatHistory and inserted into the in-memory index only on the success
outcome; on the absorbed-failure outcome both the store and the index are
left exactly as they were. -/
theorem handleSend_persistence_policy (st : ChatPageState) (text : String)
    (imageBase64 audioFile : Option String) (now1 now2 : Nat)
    (response maintenanceText : String)
    (hguard : ¬(jsTrim text = "" ∧ imageBase64.getD "" = "" ∧ audioFile.getD "" = ""))
    (hlen : (getChatHistory st.stored).length ≤ 50) :
    ((handleSend st text imageBase64 audioFile now1 now2 (SendOutcome.success response) maintenanceText).state.currentSession
        ∈ getChatHistory (handleSend st text imageBase64 audioFile now1 now2 (SendOutcome.success response) maintenanceText).state.stored
      ∧ (handleSend st text imageBase64 audioFile now1 now2 (SendOutcome.success response) maintenanceText).state.currentSession
        ∈ (handleSend st text imageBase64 audioFile now1 now2 (SendOutcome.success response) maintenanceText).state.sessions)
    ∧ ((handleSend st text imageBase64 audioFile now1 now2 SendOutcome.failure maintenanceText).state.stored = st.stored
      ∧ (handleSend st text imageBase64 audioFile now1 now2 SendOutcome.failure maintenanceText).state.sessions = st.sessions) := by
  rw [handleSend_success_eq st text imageBase64 audioFile now1 now2 response maintenanceText hguard,
    handleSend_failure_eq st text imageBase64 audioFile now1 now2 maintenanceText hguard]
  refine ⟨⟨?_, ?_⟩, rfl, rfl⟩
  · rw [getChatHistory_saveChatHistory]
    exact mem_saveChatHistoryList _ _ hlen
  · exact mem_updateSessionsIndex _ _

/-- Claim C1 witness: a concrete successful send lands the final session
in both the loaded store and the index, and a failure leaves both alone. -/
theorem handleSend_persistence_policy_witness :
    ((handleSend st0 "hi" none none 5 6 (SendOutcome.success "r") "svc").state.currentSession
        ∈ getChatHistory (handleSend st0 "hi" none none 5 6 (SendOutcome.success "r") "svc").state.stored
      ∧ (handleSend st0 "hi" none none 5 6 (SendOutcome.success "r") "svc").state.currentSession
        ∈ (handleSend st0 "hi" none none 5 6 (SendOutcome.success "r") "svc").state.sessions)
    ∧ ((handleSend st0 "hi" none none 5 6 SendOutcome.failure "svc").state.stored = st0.stored
      ∧ (handleSend st0 "hi" none none 5 6 SendOutcome.failure "svc").state.sessions = st0.sessions) :=
  handleSend_persistence_policy st0 "hi" none none 5 6 "r" "svc"
    (by intro hc; exact absurd hc.1 (by decide)) (by decide)

/-- Claim C5 counterexample: with index [A, B] and active session B, a
successful send leaves the id order [A, B] — the touched session B is not
moved to the front, contradicting the claimed move-to-front policy. -/
theorem sessions_index_not_moved_to_front :
    ((handleSend stAB "x" none none 5 6 (SendOutcome.success "r") "m").state.sessions.map
        ChatSession.id = ["A", "B"])
    ∧ ((handleSend stAB "x" none none 5 6 (SendOutcome.success "r") "m").state.sessions.map
        ChatSession.id).head? = some "A" := by
  decide

/-- Claim C5 as amended: only a successful exchange updates the index; a
session not yet present is prepended to the front, a session already
present is replaced in place with every position (id sequence) unchanged,
and an absorbed failure leaves the index untouched. -/
theorem sessions_index_policy (st : ChatPageState) (text : String)
    (imageBase64 audioFile : Option String) (now1 now2 : Nat)
    (response maintenanceText : String)
    (hguard : ¬(jsTrim text = "" ∧ imageBase64.getD "" = "" ∧ audioFile.getD "" = "")) :
    ((∀ x ∈ st.sessions, x.id ≠ st.currentSession.id) →
        (handleSend st text imageBase64 audioFile now1 now2 (SendOutcome.success response) maintenanceText).state.sessions
          = (handleSend st text imageBase64 audioFile now1 now2 (SendOutcome.success response) maintenanceText).state.currentSession
              :: st.sessions)
    ∧ ((∃ x ∈ st.sessions, x.id = st.currentSession.id) →
        ((handleSend st text imageBase64 audioFile now1 now2 (SendOutcome.success response) maintenanceText).state.sessions.map
            ChatSession.id = st.sessions.map ChatSession.id
          ∧ (handleSend st text imageBase64 audioFile now1 now2 (SendOutcome.success response) maintenanceText).state.currentSession
            ∈ (handleSend st text imageBase64 audioFile now1 now2 (SendOutcome.success response) maintenanceText).state.sessions))
    ∧ (handleSend st text imageBase64 audioFile now1 now2 SendOutcome.failure maintenanceText).state.sessions
        = st.sessions := by
  have hid :
      (appendAssistant (buildUserSession st.currentSession text imageBase64 audioFile now1)
          response now2).id = st.currentSession.id := by
    rw [appendAssistant_id, buildUserSession_id]
  rw [handleSend_success_eq st text imageBase64 audioFile now1 now2 response maintenanceText hguard,
    handleSend_failure_eq st text imageBase64 audioFile now1 now2 maintenanceText hguard]
  refine ⟨?_, ?_, rfl⟩
  · intro habsent
    exact updateSessionsIndex_absent _ _ (fun x hx => by rw [hid]; exact habsent x hx)
  · intro hpresent
    refine ⟨?_, mem_updateSessionsIndex _ _⟩
    exact updateSessionsIndex_present_ids _ _ (by
      obtain ⟨x, hx, hxid⟩ := hpresent
      exact ⟨x, hx, by rw [hid]; exact hxid⟩)

/-- Claim C5 witness: from an empty index, a successful send prepends the
final session to the front; a failed send leaves the index empty. -/
theorem sessions_index_policy_witness :
    ((handleSend st0 "hi" none none 5 6 (SendOutcome.success "r") "m").state.sessions
        = (handleSend st0 "hi" none none 5 6 (SendOutcome.success "r") "m").state.currentSession
            :: st0.sessions)
    ∧ (handleSend st0 "hi" none none 5 6 SendOutcome.failure "m").state.sessions
        = st0.sessions := by
  have h := sessions_index_policy st0 "hi" none none 5 6 "r" "m"
    (by intro hc; exact absurd hc.1 (by decide))
  exact ⟨h.1 (by simp [st0]), h.2.2⟩

/-- Claim C3 counterexample: a first message whose text is the single
space (length 1 ≤ 30, non-empty), sent with an image attachment, is
appended — yet the title stays the placeholder instead of becoming the
text, because the code tests the trimmed text. -/
theorem title_not_set_for_whitespace_text :
    ((handleSend st0 " " (some "img") none 5 6 (SendOutcome.success "r") "m").state.currentSession.messages.map
        Message.content = [" ", "r"])
    ∧ (handleSend st0 " " (some "img") none 5 6 (SendOutcome.success "r") "m").state.currentSession.title
        = "New Chat"
    ∧ (" " : String).length ≤ 30
    ∧ ("New Chat" : String) ≠ " " := by
  decide

/-- Claim C3 as amended: the title is set only from the first message of
a session and only when that message's text is non-empty after trimming,
and is never overwritten later; for such text the title is the text
itself when its length is at most 30, else its first 30 characters plus
an ellipsis marker. -/
theorem title_derivation (st : ChatPageState) (text : String)
    (imageBase64 audioFile : Option String) (now1 now2 : Nat)
    (outcome : SendOutcome) (maintenanceText : String) :
    ((st.currentSession.messages = [] → jsTrim text ≠ "" →
        (handleSend st text imageBase64 audioFile now1 now2 outcome maintenanceText).state.currentSession.title
          = generateTitle text)
      ∧ (st.currentSession.messages ≠ [] ∨ jsTrim text = "" →
        (handleSend st text imageBase64 audioFile now1 now2 outcome maintenanceText).state.currentSession.title
          = st.currentSession.title))
    ∧ ((text.length ≤ 30 → generateTitle text = text)
      ∧ (31 ≤ text.length →
        generateTitle text = String.mk (text.data.take 30) ++ "...")) := by
  have hg : ∀ houtcome : SendOutcome,
      ¬(jsTrim text = "" ∧ imageBase64.getD "" = "" ∧ audioFile.getD "" = "") →
      (handleSend st text imageBase64 audioFile now1 now2 houtcome maintenanceText).state.currentSession.title
        = (buildUserSession st.currentSession text imageBase64 audioFile now1).title := by
    intro houtcome hguard
    cases houtcome with
    | success response =>
      rw [handleSend_success_eq st text imageBase64 audioFile now1 now2 response maintenanceText hguard]
      exact appendAssistant_title _ _ _
    | failure =>
      rw [handleSend_failure_eq st text imageBase64 audioFile now1 now2 maintenanceText hguard]
      exact appendAssistant_title _ _ _
  refine ⟨⟨?_, ?_⟩, ?_, ?_⟩
  · intro hmsgs htrim
    rw [hg outcome (fun hc => htrim hc.1)]
    exact buildUserSession_title_first st.currentSession text imageBase64 audioFile now1 hmsgs htrim
  · intro h
    by_cases hguard : jsTrim text = "" ∧ imageBase64.getD "" = "" ∧ audioFile.getD "" = ""
    · rw [handleSend, if_pos hguard]
    · rw [hg outcome hguard]
      exact buildUserSession_title_unchanged st.currentSession text imageBase64 audioFile now1 h
  · intro hlen
    rw [generateTitle, if_pos hlen]
  · intro hlen
    rw [generateTitle, if_neg (by omega)]

/-- Claim C3 witness: a concrete short first message becomes the title
verbatim, and a second send leaves the title alone. -/
theorem title_derivation_witness :
    ((handleSend st0 "hello" none none 1 2 (SendOutcome.success "r") "m").state.currentSession.title
        = generateTitle "hello")
    ∧ generateTitle "hello" = "hello" := by
  have h := title_derivation st0 "hello" none none 1 2 (SendOutcome.success "r") "m"
  exact ⟨h.1.1 rfl (by decide), h.2.1 (by decide)⟩

/-- Claim C2: saveChatHistory upserts by id — an existing id is replaced
at its position, a fresh id is appended; a fresh save into a full store
of 50 evicts exactly the element at position 0, and the collection never
exceeds 50 sessions. -/
theorem saveChatHistory_upsert_eviction (history : List ChatSession)
    (session : ChatSession) (hlen : history.length ≤ 50) :
    ((∀ pre old suf, history = pre ++ old :: suf →
        (∀ x ∈ pre, x.id ≠ session.id) → old.id = session.id →
        saveChatHistoryList history session = pre ++ session :: suf)
      ∧ ((∀ x ∈ history, x.id ≠ session.id) →
        ((history.length < 50 →
            saveChatHistoryList history session = history ++ [session])
          ∧ (history.length = 50 →
            saveChatHistoryList history session = history.tail ++ [session]))))
    ∧ (saveChatHistoryList history session).length ≤ 50 := by
  refine ⟨⟨?_, ?_⟩, ?_⟩
  · intro pre old suf hsplit hpre hold
    subst hsplit
    rw [saveChatHistoryList, upsertSession_replace pre old suf session hpre hold,
      capHistory]
    rw [if_neg (by
      rw [List.length_append] at hlen ⊢
      simp only [List.length_cons] at hlen ⊢
      omega)]
  · intro hfresh
    rw [saveChatHistoryList, upsertSession_append history session hfresh, capHistory]
    constructor
    · intro hlt
      rw [if_neg (by
        rw [List.length_append]
        simp only [List.length_singleton]
        omega)]
    · intro heq
      rw [if_pos (by
        rw [List.length_append]
        simp only [List.length_singleton]
        omega)]
      match history, heq with
      | x :: rest, _ => rfl
  · rw [saveChatHistoryList, capHistory]
    rcases upsertSession_cases history session with hcase | hcase
    · rw [if_neg (by omega)]
      omega
    · rw [hcase]
      have h1 : (history ++ [session]).length = history.length + 1 := by
        rw [List.length_append, List.length_singleton]
      split
      · rw [List.length_tail]
        omega
      · omega

/-- Claim C2 witness: saving a 51st distinct session into a full store of
50 evicts exactly the first-inserted session and appends the new one. -/
theorem saveChatHistory_upsert_eviction_witness :
    saveChatHistoryList demoHistory (demoSession 50)
      = demoHistory.tail ++ [demoSession 50] := by
  have h := saveChatHistory_upsert_eviction demoHistory (demoSession 50) (by decide)
  exact (h.1.2 (by decide)).2 (by decide)

/-- Claim C4: saving any session into a store respecting the capacity
invariant and loading again yields a collection containing that very
session — all fields, including createdAt, updatedAt and every message
timestamp, restored as millisecond-precise Date values. -/
theorem save_load_round_trip (stored : Option (List StoredSession))
    (s : ChatSession) (hlen : (getChatHistory stored).length ≤ 50) :
    s ∈ getChatHistory (saveChatHistory stored s) := by
  rw [getChatHistory_saveChatHistory]
  exact mem_saveChatHistoryList _ _ hlen

/-- Claim C4 witness: a concrete session saved into an empty store is
found intact on the next load. -/
theorem save_load_round_trip_witness :
    demoSession 0 ∈ getChatHistory (saveChatHistory none (demoSession 0)) :=
  save_load_round_trip none (demoSession 0) (by decide)

end Earthworm
